import Mathlib

/-!
Shallow embedding of the job-tracker repository (`src/models.py`, `src/cli.py`):
a single `jobs` table and seven CRUD command handlers over it.

The persistent store is modelled as `Option (List Job)`: `none` is a fresh
store whose `jobs` table does not exist yet, `some db` is the table with rows
`db` in retrieval (insertion) order.  Touching a missing table raises the
storage layer's `OperationalError`, modelled as `DbError.noSuchTable`, which
the command layer never catches.  Console rendering is not part of the
contract; each command's observable outcome (message kind, exit code, written
rows) is captured by a small result type.
-/

namespace JobTracker

/-- A calendar date as stored in the `deadline` column (`sqlalchemy.Date`,
no time of day). -/
structure Date where
  year : Nat
  month : Nat
  day : Nat
deriving DecidableEq, Repr

/-- Zero-pad a numeral to width 2, as `date.isoformat` renders month and day. -/
def pad2 (n : Nat) : String :=
  if n < 10 then "0" ++ toString n else toString n

/-- Zero-pad a numeral to width 4, as `date.isoformat` renders the year. -/
def pad4 (n : Nat) : String :=
  if n < 10 then "000" ++ toString n
  else if n < 100 then "00" ++ toString n
  else if n < 1000 then "0" ++ toString n
  else toString n

/-- `date.isoformat()`: the ISO-8601 rendering `YYYY-MM-DD`. -/
def Date.isoformat (d : Date) : String :=
  pad4 d.year ++ "-" ++ pad2 d.month ++ "-" ++ pad2 d.day

/-- The `Job` row of `models.py`: integer primary key, required `title` and
`company`, optional `link`, `deadline`, `notes` (NULL modelled as `none`),
and a `status` string. -/
structure Job where
  id : Nat
  title : String
  company : String
  link : Option String
  status : String
  deadline : Option Date
  notes : Option String
deriving DecidableEq, Repr

/-- The persistent store: `none` models a store whose `jobs` table has never
been created, `some db` the existing table. -/
abbrev Store := Option (List Job)

/-- `init_db` (`models.py`): `Base.metadata.create_all` — creates the table if
absent, does nothing otherwise; idempotent. -/
def init_db : Store → Store
  | none => some []
  | some db => some db

/-- The uncaught storage-layer failure: querying a table that was never
created raises `OperationalError` ("no such table: jobs"). -/
inductive DbError where
  | noSuchTable
deriving DecidableEq, Repr

/-- Opening a session and reading the `jobs` table: fails when the table does
not exist. -/
def sessionRows : Store → Except DbError (List Job)
  | none => .error .noSuchTable
  | some db => .ok db

/-- The `valid` set of `update` in `cli.py`:
`{"interested", "applied", "interview", "offer", "rejected"}`. -/
def validStatuses : List String :=
  ["interested", "applied", "interview", "offer", "rejected"]

/-- Leap-year test of the Gregorian calendar, as `datetime.date` uses to
validate the day of February. -/
def isLeapYear (y : Nat) : Bool :=
  (y % 4 == 0 && y % 100 != 0) || y % 400 == 0

/-- Number of days in a month, as `datetime.date` validates the day field. -/
def daysInMonth (y m : Nat) : Nat :=
  if m == 2 then (if isLeapYear y then 29 else 28)
  else if m == 4 || m == 6 || m == 9 || m == 11 then 30
  else 31

/-- The range validation of the `datetime.date(y, m, d)` constructor:
`MINYEAR ≤ y ≤ MAXYEAR`, `1 ≤ m ≤ 12`, `1 ≤ d ≤` days in that month.
Outside these ranges the constructor raises `ValueError`. -/
def dateValid (y m d : Nat) : Bool :=
  decide (1 ≤ y ∧ y ≤ 9999 ∧ 1 ≤ m ∧ m ≤ 12 ∧ 1 ≤ d ∧ d ≤ daysInMonth y m)

/-- The uncaught exceptions `add` can terminate with: the storage layer's
`OperationalError`, or the `ValueError` raised by `int(...)` on a
non-numeral, by unpacking a split of the wrong arity, or by `datetime.date`
on an out-of-range field. -/
inductive AddError where
  | noSuchTable
  | valueError
deriving DecidableEq, Repr

/-- `_parse_date` (`cli.py`): the empty string means no deadline; otherwise
the string is split on `-`, the three parts are parsed as integers and fed to
`datetime.date`.  A split of the wrong arity, a non-numeral part, or an
out-of-range field raises `ValueError`, which `add` does not catch.
(Numeral parts are modelled as ASCII digit strings; Python's `int` also
strips whitespace and signs, which only makes it accept more strings — on
every string this embedding parses, the program parses it identically.) -/
def parse_date (s : String) : Except AddError (Option Date) :=
  if s = "" then .ok none
  else
    match (s.splitOn "-").map String.toNat? with
    | [some y, some m, some d] =>
      if dateValid y m d then .ok (some ⟨y, m, d⟩) else .error .valueError
    | _ => .error .valueError

/-- Python `s or None` applied to an optional text column: the empty string is
stored as NULL. -/
def orNone (s : String) : Option String :=
  if s = "" then none else some s

/-- The auto-assigned integer primary key for a fresh row: one more than the
largest id in use (SQLite rowid assignment). -/
def nextId (db : List Job) : Nat :=
  (db.map Job.id).foldr max 0 + 1

/-- The `add` command: initializes storage, builds the new `Job` (blank link
and notes become NULL, the deadline string is parsed — a malformed one raises
uncaught `ValueError` — and the status option defaults to "interested" when
not supplied), inserts it and commits.  Returns the new store and the id
reported by the confirmation message. -/
def add (st : Store) (title company link deadline notes : String)
    (statusOpt : Option String) : Except AddError (Store × Nat) :=
  match sessionRows (init_db st) with
  | .error _ => .error .noSuchTable
  | .ok db =>
    match parse_date deadline with
    | .error e => .error e
    | .ok dl =>
      let j : Job :=
        { id := nextId db
          title := title
          company := company
          link := orNone link
          status := statusOpt.getD "interested"
          deadline := dl
          notes := orNone notes }
      .ok (some (db ++ [j]), j.id)

/-- The `list` command: initializes storage, reads all rows, and filters in
memory by exact status match when a non-empty filter is given. -/
def list (st : Store) (status : String) : Except DbError (Store × List Job) :=
  let st1 := init_db st
  match sessionRows st1 with
  | .error e => .error e
  | .ok rows =>
    .ok (st1, if status = "" then rows else rows.filter fun r => r.status == status)

/-- Outcome of the `update` command. -/
inductive UpdateOut where
  | invalidStatus
  | notFound
  | updated (id : Nat) (status : String)
deriving DecidableEq, Repr

/-- Process exit code of each `update` outcome (`typer.Exit(1)` on errors). -/
def UpdateOut.exitCode : UpdateOut → Nat
  | .invalidStatus => 1
  | .notFound => 1
  | .updated _ _ => 0

/-- The committed mutation of `update`: the row with the given primary key
gets the new status. -/
def setStatus (id : Nat) (status : String) (db : List Job) : List Job :=
  db.map fun r => if r.id == id then { r with status := status } else r

/-- The `update` command: rejects a status outside `validStatuses` before
touching the database; then opens a session, looks the job up by primary key
(NotFound when absent), mutates its `status` and commits.  It does not call
`init_db`. -/
def update (st : Store) (id : Nat) (status : String) :
    Except DbError (Store × UpdateOut) :=
  if status ∉ validStatuses then
    .ok (st, .invalidStatus)
  else
    match sessionRows st with
    | .error e => .error e
    | .ok db =>
      match db.find? (fun r => r.id == id) with
      | none => .ok (st, .notFound)
      | some _ => .ok (some (setStatus id status db), .updated id status)

/-- Outcome of the `remove` command. -/
inductive RemoveOut where
  | notFound
  | removed (id : Nat)
deriving DecidableEq, Repr

/-- Process exit code of each `remove` outcome. -/
def RemoveOut.exitCode : RemoveOut → Nat
  | .notFound => 1
  | .removed _ => 0

/-- The `remove` command: looks the job up by primary key (NotFound when
absent), deletes it and commits.  It does not call `init_db`. -/
def remove (st : Store) (id : Nat) : Except DbError (Store × RemoveOut) :=
  match sessionRows st with
  | .error e => .error e
  | .ok db =>
    match db.find? (fun r => r.id == id) with
    | none => .ok (st, .notFound)
    | some _ => .ok (some (db.filter fun r => r.id != id), .removed id)

/-- Outcome of the `detail` command. -/
inductive DetailOut where
  | notFound
  | found (j : Job)
deriving DecidableEq, Repr

/-- Process exit code of each `detail` outcome. -/
def DetailOut.exitCode : DetailOut → Nat
  | .notFound => 1
  | .found _ => 0

/-- The `detail` command: looks the job up by primary key and shows it;
NotFound when absent.  It does not call `init_db`. -/
def detail (st : Store) (id : Nat) : Except DbError (Store × DetailOut) :=
  match sessionRows st with
  | .error e => .error e
  | .ok db =>
    match db.find? (fun r => r.id == id) with
    | none => .ok (st, .notFound)
    | some j => .ok (st, .found j)

/-- The CSV header row written by `export`. -/
def exportHeader : List String :=
  ["id", "title", "company", "status", "deadline", "link", "notes"]

/-- One CSV data row of `export`: id, title, company, status, deadline as ISO
date or empty, link or empty, notes or empty. -/
def csvRow (r : Job) : List String :=
  [toString r.id, r.title, r.company, r.status,
    (match r.deadline with | some d => d.isoformat | none => ""),
    r.link.getD "", r.notes.getD ""]

/-- The `export` command: initializes storage and reads all rows; when the
table is empty it reports "No jobs to export" and returns without writing
(second component `none`); otherwise it writes the header row followed by one
row per job (second component `some rows`).  Always exits 0. -/
def exportCmd (st : Store) : Except DbError (Store × Option (List (List String))) :=
  let st1 := init_db st
  match sessionRows st1 with
  | .error e => .error e
  | .ok rows =>
    if rows = [] then .ok (st1, none)
    else .ok (st1, some (exportHeader :: rows.map csvRow))

/-- Python `str.lower()`, character by character. -/
def lower (s : String) : String :=
  String.mk (s.data.map Char.toLower)

/-- Python's substring test `kw in s` on character lists: `kw` occurs
contiguously in `s`. -/
def containsSub (kw : List Char) : List Char → Bool
  | [] => kw.isPrefixOf []
  | c :: rest => kw.isPrefixOf (c :: rest) || containsSub kw rest

/-- The `match` closure inside `search`: the (already lower-cased) keyword is
a substring of the lower-cased title, company, or notes, a missing notes field
reading as the empty string. -/
def matchJob (kw : String) (r : Job) : Bool :=
  let fields := [lower r.title, lower r.company, lower (r.notes.getD "")]
  fields.any fun f => containsSub kw.data f.data

/-- The rows kept by `search`: the keyword is lower-cased once, then each row
is tested with `matchJob`. -/
def searchResults (db : List Job) (keyword : String) : List Job :=
  db.filter (matchJob (lower keyword))

/-- Outcome of the `search` command. -/
inductive SearchOut where
  | noResults
  | results (rs : List Job)
deriving DecidableEq, Repr

/-- The `search` command: initializes storage, reads all rows, keeps the
matching ones; prints the no-results message when none match, the result
table otherwise.  Always exits 0. -/
def search (st : Store) (keyword : String) : Except DbError (Store × SearchOut) :=
  let st1 := init_db st
  match sessionRows st1 with
  | .error e => .error e
  | .ok rows =>
    let results := searchResults rows keyword
    if results = [] then .ok (st1, .noResults)
    else .ok (st1, .results results)

/-- The spec's search predicate, written from its words: the lower-cased
keyword is a substring of the lower-cased title, lower-cased company, or
lower-cased notes (any one field matching is sufficient); an absent field is
treated as the empty string. -/
def specSearchMatch (keyword : String) (r : Job) : Prop :=
  (lower keyword).data <:+: (lower r.title).data ∨
  (lower keyword).data <:+: (lower r.company).data ∨
  (lower keyword).data <:+: (lower (r.notes.getD "")).data

/-- A concrete row used to instantiate the hypotheses of the theorems below. -/
def sampleJob : Job :=
  { id := 1
    title := "Backend Engineer"
    company := "Acme"
    link := none
    status := "applied"
    deadline := none
    notes := none }

/-! ## General lemmas about the embedding -/

/-- `containsSub` decides the contiguous-substring relation on character
lists. -/
theorem containsSub_iff (kw s : List Char) : containsSub kw s = true ↔ kw <:+: s := by
  induction s with
  | nil =>
    simp [containsSub, List.isPrefixOf_iff_prefix, List.infix_nil, List.prefix_nil]
  | cons c rest ih =>
    simp [containsSub, List.isPrefixOf_iff_prefix, List.infix_cons_iff, ih]

/-- The empty keyword is a substring of every string. -/
theorem containsSub_nil (l : List Char) : containsSub [] l = true :=
  (containsSub_iff [] l).mpr List.nil_infix

/-- The closure of `search`, fed the lower-cased keyword, accepts a row
exactly when the spec's search predicate holds of it. -/
theorem matchJob_lower_iff (keyword : String) (r : Job) :
    matchJob (lower keyword) r = true ↔ specSearchMatch keyword r := by
  simp [matchJob, specSearchMatch, List.any_cons, List.any_nil, containsSub_iff]

/-! ## The claims -/

/-- C1: for every stored job and every status outside
{interested, applied, interview, offer, rejected}, `update` on that job's id
leaves the store — every field of every row — unchanged and reports
InvalidInput with exit code 1. -/
theorem C1_update_invalid_status
    (db : List Job) (j : Job) (status : String)
    (_hj : j ∈ db) (hs : status ∉ validStatuses) :
    update (some db) j.id status = .ok (some db, .invalidStatus) ∧
    UpdateOut.exitCode .invalidStatus = 1 :=
  ⟨by simp [update, hs], rfl⟩

/-- C1 instantiated: the sample row and the status "bogus". -/
theorem C1_witness :
    update (some [sampleJob]) sampleJob.id "bogus" = .ok (some [sampleJob], .invalidStatus) ∧
    UpdateOut.exitCode .invalidStatus = 1 :=
  C1_update_invalid_status [sampleJob] sampleJob "bogus" (by decide) (by decide)

/-- C2 counterexample: with an empty table (so id 1 is absent) and the
out-of-enum status "bogus", `update` reports InvalidInput, not NotFound — the
status check runs before the id lookup. -/
theorem C2_counterexample :
    update (some []) 1 "bogus" = .ok (some [], .invalidStatus) ∧
    UpdateOut.invalidStatus ≠ UpdateOut.notFound :=
  ⟨rfl, by decide⟩

/-- C2 (amended): `update` validates the status before looking up the id: an
out-of-enum status reports InvalidInput whatever the id; a valid status with
an absent id reports NotFound; a valid status with a present id mutates that
row's status and commits. -/
theorem C2_update_checks_status_first
    (db : List Job) (id : Nat) (status : String) :
    (status ∉ validStatuses →
      update (some db) id status = .ok (some db, .invalidStatus)) ∧
    (status ∈ validStatuses → (∀ j ∈ db, j.id ≠ id) →
      update (some db) id status = .ok (some db, .notFound)) ∧
    (status ∈ validStatuses → (∃ j ∈ db, j.id = id) →
      update (some db) id status =
        .ok (some (setStatus id status db), .updated id status)) := by
  refine ⟨fun hs => by simp [update, hs], fun hs habs => ?_, fun hs hex => ?_⟩
  · have hfind : db.find? (fun r => r.id == id) = none := by
      rw [List.find?_eq_none]
      intro x hx
      simpa using habs x hx
    simp [update, sessionRows, hs, hfind]
  · obtain ⟨j, hj, hjid⟩ := hex
    have hfind : (db.find? (fun r => r.id == id)).isSome := by
      rw [List.find?_isSome]
      exact ⟨j, hj, by simp [hjid]⟩
    obtain ⟨r0, hr0⟩ := Option.isSome_iff_exists.mp hfind
    simp [update, sessionRows, hs, hr0]

/-- C2 (amended) instantiated: valid status, present id — the row is
mutated. -/
theorem C2_witness :
    update (some [sampleJob]) 1 "interview" =
      .ok (some (setStatus 1 "interview" [sampleJob]), .updated 1 "interview") :=
  (C2_update_checks_status_first [sampleJob] 1 "interview").2.2 (by decide)
    ⟨sampleJob, by decide, rfl⟩

/-- C3: updating an existing job with a valid status rewrites only the
`status` field of the rows whose id matches that job's id; every other field
of every row — id, title, company, link, deadline, notes — and the status of
every non-matching row, as well as the row count, are unchanged. -/
theorem C3_update_frame
    (db : List Job) (j : Job) (status : String)
    (hj : j ∈ db) (hs : status ∈ validStatuses) :
    update (some db) j.id status =
      .ok (some (setStatus j.id status db), .updated j.id status) ∧
    (setStatus j.id status db).length = db.length ∧
    ∀ k (hk : k < db.length),
      ((setStatus j.id status db).get ⟨k, by simpa [setStatus] using hk⟩).id
          = (db.get ⟨k, hk⟩).id ∧
      ((setStatus j.id status db).get ⟨k, by simpa [setStatus] using hk⟩).title
          = (db.get ⟨k, hk⟩).title ∧
      ((setStatus j.id status db).get ⟨k, by simpa [setStatus] using hk⟩).company
          = (db.get ⟨k, hk⟩).company ∧
      ((setStatus j.id status db).get ⟨k, by simpa [setStatus] using hk⟩).link
          = (db.get ⟨k, hk⟩).link ∧
      ((setStatus j.id status db).get ⟨k, by simpa [setStatus] using hk⟩).deadline
          = (db.get ⟨k, hk⟩).deadline ∧
      ((setStatus j.id status db).get ⟨k, by simpa [setStatus] using hk⟩).notes
          = (db.get ⟨k, hk⟩).notes ∧
      ((db.get ⟨k, hk⟩).id = j.id →
        ((setStatus j.id status db).get ⟨k, by simpa [setStatus] using hk⟩).status = status) ∧
      ((db.get ⟨k, hk⟩).id ≠ j.id →
        ((setStatus j.id status db).get ⟨k, by simpa [setStatus] using hk⟩).status
          = (db.get ⟨k, hk⟩).status) := by
  have hfind : (db.find? (fun r => r.id == j.id)).isSome := by
    rw [List.find?_isSome]
    exact ⟨j, hj, by simp⟩
  obtain ⟨r0, hr0⟩ := Option.isSome_iff_exists.mp hfind
  refine ⟨by simp [update, sessionRows, hs, hr0], by simp [setStatus], ?_⟩
  intro k hk
  by_cases hid : (db.get ⟨k, hk⟩).id = j.id <;>
    simp only [ List.get_eq_getElem] at hid ⊢ <;>
    simp [setStatus, List.getElem_map, hid, beq_iff_eq]

/-- C3 instantiated: the sample row updated to "offer". -/
theorem C3_witness :
    update (some [sampleJob]) sampleJob.id "offer" =
      .ok (some (setStatus sampleJob.id "offer" [sampleJob]), .updated sampleJob.id "offer") :=
  (C3_update_frame [sampleJob] sampleJob "offer" (by decide) (by decide)).1

/-- C4 counterexample: `add` with an explicitly supplied blank status stores
the empty string — the blank is not replaced by the default "interested". -/
theorem C4_counterexample :
    add (some []) "Backend Engineer" "Acme" "" "" "" (some "") =
      .ok (some [{ id := 1, title := "Backend Engineer", company := "Acme",
                   link := none, status := "", deadline := none, notes := none }], 1) ∧
    ("" : String) ≠ "interested" :=
  ⟨rfl, by decide⟩

/-- C4 (amended): whenever the deadline string parses (in particular when it
is empty), `add` with no `--status` option inserts status "interested" (the
CLI option default); an explicitly supplied status — including the empty
string — is stored verbatim. -/
theorem C4_add_status_default
    (db : List Job) (t c l d n : String) (sOpt : Option String)
    (od : Option Date) (hd : parse_date d = .ok od) :
    (sOpt = none →
      add (some db) t c l d n sOpt =
        .ok (some (db ++ [{ id := nextId db, title := t, company := c, link := orNone l,
                            status := "interested", deadline := od,
                            notes := orNone n }]), nextId db)) ∧
    (∀ s, sOpt = some s →
      add (some db) t c l d n sOpt =
        .ok (some (db ++ [{ id := nextId db, title := t, company := c, link := orNone l,
                            status := s, deadline := od,
                            notes := orNone n }]), nextId db)) := by
  constructor
  · rintro rfl
    simp [add, init_db, sessionRows, hd]
  · rintro s rfl
    simp [add, init_db, sessionRows, hd]

/-- C4 (amended) instantiated: no `--status` option yields "interested". -/
theorem C4_witness :
    add (some []) "Backend Engineer" "Acme" "" "" "" none =
      .ok (some ([] ++ [{ id := nextId [], title := "Backend Engineer", company := "Acme",
                          link := orNone "", status := "interested",
                          deadline := none, notes := orNone "" }]), nextId []) :=
  (C4_add_status_default [] "Backend Engineer" "Acme" "" "" "" none none rfl).1 rfl

/-- C5: `remove` on a present id deletes that row, and a subsequent `detail`
on the same id reports NotFound with exit 1; `remove` on an absent id reports
NotFound with exit 1 and leaves the store untouched. -/
theorem C5_remove_then_detail
    (db : List Job) (id : Nat) :
    ((∃ j ∈ db, j.id = id) →
      remove (some db) id = .ok (some (db.filter fun r => r.id != id), .removed id) ∧
      detail (some (db.filter fun r => r.id != id)) id =
        .ok (some (db.filter fun r => r.id != id), .notFound) ∧
      DetailOut.exitCode .notFound = 1 ∧ RemoveOut.exitCode (.removed id) = 0) ∧
    ((∀ j ∈ db, j.id ≠ id) →
      remove (some db) id = .ok (some db, .notFound) ∧
      RemoveOut.exitCode .notFound = 1) := by
  constructor
  · rintro ⟨j, hj, hjid⟩
    have hfind : (db.find? (fun r => r.id == id)).isSome := by
      rw [List.find?_isSome]
      exact ⟨j, hj, by simp [hjid]⟩
    obtain ⟨r0, hr0⟩ := Option.isSome_iff_exists.mp hfind
    refine ⟨by simp [remove, sessionRows, hr0], ?_, rfl, rfl⟩
    have hnone : (db.filter fun r => r.id != id).find? (fun r => r.id == id) = none := by
      rw [List.find?_eq_none]
      intro x hx
      have hne := (List.mem_filter.mp hx).2
      simp at hne ⊢
      exact hne
    simp [detail, sessionRows, hnone]
  · intro habs
    have hfind : db.find? (fun r => r.id == id) = none := by
      rw [List.find?_eq_none]
      intro x hx
      simpa using habs x hx
    exact ⟨by simp [remove, sessionRows, hfind], rfl⟩

/-- C5 instantiated: removing the sample row empties the store; removing from
an empty store reports NotFound and changes nothing. -/
theorem C5_witness :
    (remove (some [sampleJob]) 1 =
      .ok (some ([sampleJob].filter fun r => r.id != 1), .removed 1)) ∧
    (remove (some ([] : List Job)) 1 = .ok (some [], .notFound)) :=
  ⟨((C5_remove_then_detail [sampleJob] 1).1 ⟨sampleJob, by decide, rfl⟩).1,
   ((C5_remove_then_detail [] 1).2 (by decide)).1⟩

/-- C6: `list` with a non-empty status filter returns exactly the rows whose
status equals the filter (and no others), leaving the store unchanged; with
the empty filter it returns all rows. -/
theorem C6_list_filter (db : List Job) (status : String) :
    (status ≠ "" →
      list (some db) status = .ok (some db, db.filter fun r => r.status == status) ∧
      ∀ r : Job, r ∈ db.filter (fun r => r.status == status) ↔ r ∈ db ∧ r.status = status) ∧
    (status = "" → list (some db) status = .ok (some db, db)) := by
  constructor
  · intro h
    refine ⟨by simp [list, init_db, sessionRows, h], ?_⟩
    intro r
    simp [List.mem_filter]
  · rintro rfl; rfl

/-- C6 instantiated: filtering the sample store by "applied". -/
theorem C6_witness :
    list (some [sampleJob]) "applied" =
      .ok (some [sampleJob], [sampleJob].filter fun r => r.status == "applied") :=
  ((C6_list_filter [sampleJob] "applied").1 (by decide)).1

/-- C7: a row survives `search` exactly when the lower-cased keyword is a
substring of its lower-cased title, lower-cased company, or lower-cased notes
(any one field suffices), an absent notes field reading as the empty
string. -/
theorem C7_search_characterisation
    (db : List Job) (keyword : String) (r : Job) :
    r ∈ searchResults db keyword ↔ r ∈ db ∧ specSearchMatch keyword r := by
  rw [searchResults, List.mem_filter, matchJob_lower_iff]

/-- C7 instantiated: "acme" finds the sample row through its company. -/
theorem C7_witness :
    sampleJob ∈ searchResults [sampleJob] "acme" :=
  (C7_search_characterisation [sampleJob] "acme" sampleJob).mpr
    ⟨by decide, by unfold specSearchMatch; decide⟩

/-- C8: `export` on an empty table writes nothing; on N jobs it writes the
header `id,title,company,status,deadline,link,notes` followed by one row per
job — N + 1 rows in all — whose fields are the stored id, title, company and
status, the deadline as an ISO date or the empty string, and the link and
notes or the empty string. -/
theorem C8_export_rows (db : List Job) :
    (db = [] → exportCmd (some db) = .ok (some db, none)) ∧
    (db ≠ [] →
      exportCmd (some db) = .ok (some db, some (exportHeader :: db.map csvRow)) ∧
      (exportHeader :: db.map csvRow).length = db.length + 1 ∧
      exportHeader = ["id", "title", "company", "status", "deadline", "link", "notes"] ∧
      ∀ k (hk : k < db.length),
        (db.map csvRow).get ⟨k, by simpa using hk⟩ =
          [toString (db.get ⟨k, hk⟩).id,
           (db.get ⟨k, hk⟩).title,
           (db.get ⟨k, hk⟩).company,
           (db.get ⟨k, hk⟩).status,
           (match (db.get ⟨k, hk⟩).deadline with | some d => d.isoformat | none => ""),
           ((db.get ⟨k, hk⟩).link).getD "",
           ((db.get ⟨k, hk⟩).notes).getD ""]) := by
  constructor
  · rintro rfl; rfl
  · intro h
    refine ⟨by simp [exportCmd, init_db, sessionRows, h], by simp, rfl, ?_⟩
    intro k hk
    simp [List.get_eq_getElem, List.getElem_map, csvRow]

/-- C8 instantiated: exporting a one-row store. -/
theorem C8_witness :
    exportCmd (some [sampleJob]) =
      .ok (some [sampleJob], some (exportHeader :: [sampleJob].map csvRow)) :=
  ((C8_export_rows [sampleJob]).2 (by decide)).1

/-- C9 counterexample: on a fresh store whose table was never created,
`update` with a valid status, `remove` and `detail` all raise the uncaught
storage error — they never call `init_db`, so they are not safe as the
first-ever invocation. -/
theorem C9_counterexample :
    update none 1 "applied" = .error .noSuchTable ∧
    remove none 1 = .error .noSuchTable ∧
    detail none 1 = .error .noSuchTable :=
  ⟨rfl, rfl, rfl⟩

/-- C9 (amended): `add` (whenever its deadline string parses, in particular
when it is empty), `list`, `export` and `search` initialize storage before
opening their session and succeed on a fresh store; `update` (with a valid
status), `remove` and `detail` do not initialize and fail with the storage
error there. -/
theorem C9_init_coverage
    (t c l d n : String) (sOpt : Option String) (f kw : String) (id : Nat) (status : String)
    (od : Option Date) (hd : parse_date d = .ok od) (hs : status ∈ validStatuses) :
    add none t c l d n sOpt =
      .ok (some [{ id := 1, title := t, company := c, link := orNone l,
                   status := sOpt.getD "interested", deadline := od,
                   notes := orNone n }], 1) ∧
    list none f = .ok (some [], []) ∧
    exportCmd none = .ok (some [], none) ∧
    search none kw = .ok (some [], .noResults) ∧
    update none id status = .error .noSuchTable ∧
    remove none id = .error .noSuchTable ∧
    detail none id = .error .noSuchTable := by
  refine ⟨?_, ?_, rfl, rfl, ?_, rfl, rfl⟩
  · simp [add, init_db, sessionRows, hd, nextId]
  · by_cases hf : f = "" <;> simp [list, init_db, sessionRows, hf]
  · simp [update, sessionRows, hs]

/-- C9 (amended) instantiated at concrete arguments. -/
theorem C9_witness :
    add none "Backend Engineer" "Acme" "" "" "" none =
      .ok (some [{ id := 1, title := "Backend Engineer", company := "Acme",
                   link := orNone "", status := "interested",
                   deadline := none, notes := orNone "" }], 1) ∧
    update none 2 "offer" = .error .noSuchTable :=
  ⟨(C9_init_coverage "Backend Engineer" "Acme" "" "" "" none "" "x" 2 "offer" none rfl
      (by decide)).1,
   (C9_init_coverage "Backend Engineer" "Acme" "" "" "" none "" "x" 2 "offer" none rfl
      (by decide)).2.2.2.2.1⟩

/-- C10: the empty keyword matches every job, so on a non-empty store `search`
returns all rows — not the no-results message. -/
theorem C10_search_empty_keyword (db : List Job) (h : db ≠ []) :
    search (some db) "" = .ok (some db, .results db) := by
  have hkw : (lower "").data = [] := rfl
  have hres : searchResults db "" = db := by
    rw [searchResults, List.filter_eq_self]
    intro r _
    simp [matchJob, hkw, containsSub_nil]
  simp [search, init_db, sessionRows, hres, h]

/-- C10 instantiated: the empty keyword on a one-row store. -/
theorem C10_witness :
    search (some [sampleJob]) "" = .ok (some [sampleJob], .results [sampleJob]) :=
  C10_search_empty_keyword [sampleJob] (by decide)

end JobTracker
